import Mathlib

/-!
Verification development for the analytics-python buffering, batching and
delivery pipeline (src/analytics/client.py, consumer.py, request.py,
utils.py).  Each Python function relevant to the checked properties is
shallowly embedded as an executable Lean definition; theorems about those
definitions settle the spec's claims.
-/

namespace Analytics

/-- Events are opaque payloads to the buffering logic (Python dicts built by
`identify`/`track`/`alias`); we model them by an arbitrary countable carrier. -/
abbrev Event := Nat

/-- Python exceptions distinguished by the modelled code paths. -/
inductive PyExc where
  /-- e.g. calling an object that is not callable -/
  | typeError
  /-- attribute lookup failure, e.g. attribute access on a `dict` -/
  | attributeError
  /-- `json.loads` failure on a non-JSON string -/
  | valueError
  /-- subscript of a missing mapping key -/
  | keyError
  deriving Repr, DecidableEq

/-! ## Consumer (src/analytics/consumer.py) -/

/-- `Consumer.request(self, batch, attempt=0)` (consumer.py lines 52-65).

        def request(self, batch, attempt=0):
            try:
                post(self.write_key, batch=batch, context=context)
            except:
                if attempt > self.retries:
                    raise
                self.request(batch, attempt+1)

`postOk n` tells whether the `post` call made with attempt counter `n`
succeeds (returns) or raises.  The result is the pair
(number of `post` calls performed, whether `request` itself raises).
A successful `post` returns normally; a failing `post` enters the handler:
if `attempt > retries` the exception is re-raised, otherwise the method
recurses with `attempt+1` and, once that recursion returns, itself returns
normally. -/
def request (retries : Nat) (postOk : Nat → Bool) (attempt : Nat) : Nat × Bool :=
  if postOk attempt then (1, false)
  else if retries < attempt then (1, true)
  else
    let r := request retries postOk (attempt + 1)
    (r.1 + 1, r.2)
termination_by retries + 1 - attempt
decreasing_by omega

/-- `Consumer.next(self)` drain loop (consumer.py lines 41-50).

        item = queue.get(block=True)
        items = [item]
        while len(items) < self.upload_size and not queue.empty():
            items.append(queue.get(block=True))
        return items

`next_drain u items queue` runs the `while` loop on the already-collected
`items` and the remaining queue contents; it returns the final batch and
the queue contents left behind. -/
def next_drain {α : Type} (u : Nat) (items : List α) : List α → List α × List α
  | [] => (items, [])
  | x :: xs =>
    if items.length < u then next_drain u (items ++ [x]) xs
    else (items, x :: xs)

/-- `Consumer.next`: blocks for the first item (modelled as `none` on an
empty queue, where the real code would block forever), then greedily drains
without blocking. -/
def next {α : Type} (u : Nat) : List α → Option (List α × List α)
  | [] => none
  | x :: xs => some (next_drain u [x] xs)

/-- `Consumer.upload(self)` (consumer.py lines 26-39), applied to the batch
obtained from `self.next()`:

        success = False
        batch = self.next()
        try:
            self.request(batch)
            success = True
        except:
            log('error')
        for item in batch:
            self.queue.task_done()
        return success

The first component is the call's outcome — the returned boolean, or the
exception it raises — and the second is the number of
`self.queue.task_done()` calls made.  When `self.request(batch)` raises
(that is, `(request retries postOk 0).2 = true`), the handler executes
`log('error')`; consumer.py line 7 binds `log = logging.getLogger('analytics')`,
and calling a `logging.Logger` object raises `TypeError`, which propagates
out of `upload` before the `task_done` loop is reached. -/
def upload (retries : Nat) (postOk : Nat → Bool) (batch : List Event) :
    Except PyExc Bool × Nat :=
  if (request retries postOk 0).2 then
    (Except.error PyExc.typeError, 0)
  else
    (Except.ok true, batch.length)

/-! ## Client state (src/analytics/client.py)

`Client.__init__` (client.py lines 122-128) assigns `self.queue`
(a `queue.Queue(max_queue_size)`, whose capacity lives in the Queue's
`maxsize`), `self.consumer`, `self.write_key`, `self.timeout`,
`self.stats`, `self.send` and `self.debug`.  The state record below
collects the assigned attributes observable by the modelled calls: the
send flag, the queue's contents and `maxsize`, and the stats counters.
(The attributes `self.max_queue_size`, `self.flush_at`,
`self.last_flushed`, `self.flush_after` and the callback registries that
other method bodies mention are never assigned anywhere; every statement
reading them is unreachable behind an earlier exception, see `enqueue`.) -/

structure Stats where
  submitted : Nat
  successful : Nat
  failed : Nat
  deriving Repr, DecidableEq

structure ClientState where
  send : Bool
  queue : List Event
  queue_maxsize : Nat
  stats : Stats
  deriving Repr, DecidableEq

/-- `Client._should_flush(self)` (client.py lines 298-307), on the inputs
the flush-policy contract abstracts over (queue depth, `flush_at`,
`last_flushed`, the current time and `flush_after`):

        full = len(self.queue) >= self.flush_at
        stale = self.last_flushed is None
        if not stale:
            stale = datetime.now() - self.last_flushed > self.flush_after
        return full or stale

Note the strict `>` in the time comparison.  Instants and durations are
integer microseconds (Python compares `datetime` differences with
`timedelta` thresholds exactly). -/
def should_flush (queue_len flush_at : Nat) (last_flushed : Option Int)
    (now flush_after : Int) : Bool :=
  let full := flush_at ≤ queue_len
  let stale := match last_flushed with
    | none => true
    | some t => flush_after < now - t
  full || stale

deriving instance DecidableEq for Except

/-- Observable outcome of one `Client._enqueue` call: the returned boolean
or the exception the call raises, whether `self._should_flush()` was
evaluated during the call, whether `self.flush()` was called, and the
state afterwards. -/
structure EnqueueResult where
  outcome : Except PyExc Bool
  policy_evaluated : Bool
  flush_called : Bool
  state : ClientState
  deriving Repr, DecidableEq

/-- `Client._enqueue(self, msg)` (client.py lines 309-331) under Python
semantics.

        if not self.send:
            return False
        submitted = False
        if len(self.queue) < self.max_queue_size:
            self.queue.append(action)
            self.stats.submitted += 1
            submitted = True
        else:
            log('warn', 'analytics-python queue is full')
        if self._should_flush():
            self.flush()
        return submitted

With sending disabled the first statement returns `False` and nothing else
runs.  With sending enabled, the capacity comparison evaluates its left
operand `len(self.queue)` first; `self.queue` is the `queue.Queue`
assigned in `__init__` (client.py line 122) and `Queue` defines no
`__len__`, so `len()` raises `TypeError` there, before any state is
mutated.  Every later statement is unreachable (and broken in its own
right: `self.max_queue_size` is never assigned by `__init__`, `Queue` has
no `append`, `action` is an unbound name, and `self._should_flush()`
would itself raise at its own `len(self.queue)` and the never-assigned
`self.flush_at`); in particular `self._should_flush()` is never evaluated
and `self.flush()` is never called on any path of this method. -/
def ClientState.enqueue (c : ClientState) (_msg : Event) : EnqueueResult :=
  if !c.send then
    { outcome := Except.ok false, policy_evaluated := false,
      flush_called := false, state := c }
  else
    { outcome := Except.error PyExc.typeError, policy_evaluated := false,
      flush_called := false, state := c }

/-- Repeated `_enqueue` calls. -/
def ClientState.enqueueAll (c : ClientState) : List Event → ClientState
  | [] => c
  | msg :: rest => (c.enqueue msg).state.enqueueAll rest

/-! ## Flush outcome callbacks (client.py lines 333-345) -/

/-- `Client._on_successful_flush(self, data, response)` (client.py 333-338).

        if 'batch' in data:
            for item in data['batch']:
                self.stats.successful += 1
                for callback in self.success_callbacks:
                    callback(data, response)

`data` is the delivered payload; only the presence and contents of its
`'batch'` entry matter, so the argument is `Option (List Event)`.
Registered callbacks are identified by their index in
`self.success_callbacks`; the second component is the trace of callback
invocations (each invocation receives the whole `data`). -/
def on_successful_flush (stats : Stats) (success_callbacks : List Nat)
    (batch : Option (List Event)) : Stats × List Nat :=
  match batch with
  | none => (stats, [])
  | some b =>
    b.foldl
      (fun (acc : Stats × List Nat) _ =>
        ({ acc.1 with successful := acc.1.successful + 1 }, acc.2 ++ success_callbacks))
      (stats, [])

/-- `Client._on_failed_flush(self, data, error)` (client.py 340-345); same
shape with `stats.failed` and `self.failure_callbacks`. -/
def on_failed_flush (stats : Stats) (failure_callbacks : List Nat)
    (batch : Option (List Event)) : Stats × List Nat :=
  match batch with
  | none => (stats, [])
  | some b =>
    b.foldl
      (fun (acc : Stats × List Nat) _ =>
        ({ acc.1 with failed := acc.1.failed + 1 }, acc.2 ++ failure_callbacks))
      (stats, [])

/-! ## Response packaging (client.py lines 38-65) -/

/-- JSON values, as produced by `json.loads`: a JSON object literal parses
to a Python `dict`, modelled as an association list. -/
inductive PyJson where
  | str (s : String)
  | int (n : Int)
  | bool (b : Bool)
  | null
  | obj (kvs : List (String × PyJson))
  | arr (elems : List PyJson)

abbrev PyDict := List (String × PyJson)

/-- `ApiError(code, message)`: the two positional arguments the
`analytics.errors.ApiError` constructor receives at the client.py call
sites (lines 59, 62, 65). -/
structure ApiError where
  code : PyJson
  message : PyJson

/-- What `package_response(client, data, response)` does with the outcome:
either `client._on_successful_flush(data, response)` or
`client._on_failed_flush(data, e)` with the constructed error. -/
inductive FlushOutcome where
  | success
  | failure (e : ApiError)

/-- Attribute access on a Python `dict` instance: `dict` does not expose
its keys as attributes, so `body.error` (client.py line 51) raises
`AttributeError` regardless of the dict's contents. -/
def dict_attr (_body : PyDict) (_name : String) : Except PyExc PyJson :=
  Except.error PyExc.attributeError

/-- Membership test `k in v` for the modelled values (only the mapping case
is ever reachable in the embedded code). -/
def PyJson.contains_key : PyJson → String → Except PyExc Bool
  | .obj kvs, k => pure (kvs.any (fun kv => kv.1 == k))
  | _, _ => Except.error PyExc.typeError

/-- Subscript `v[k]` for the modelled values. -/
def PyJson.subscript : PyJson → String → Except PyExc PyJson
  | .obj kvs, k =>
    match kvs.find? (fun kv => kv.1 == k) with
    | some kv => pure kv.2
    | none => Except.error PyExc.keyError
  | _, _ => Except.error PyExc.typeError

/-- The `try` block of the 400 branch of `package_response`
(client.py lines 44-59), after a successful `json.loads`:

        code = 'bad_request'
        message = 'Bad request'
        if 'error' in body:
            error = body.error
            if 'code' in error:
                code = error['code']
            if 'message' in error:
                message = error['message']
        client._on_failed_flush(data, ApiError(code, message))

The `body.error` attribute access raises, so the two inner extractions are
dead code; they are still carried over faithfully below. -/
def package_response_try (body : PyDict) : Except PyExc ApiError := do
  let mut code : PyJson := .str "bad_request"
  let mut message : PyJson := .str "Bad request"
  if body.any (fun kv => kv.1 == "error") then
    let error ← dict_attr body "error"
    if (← error.contains_key "code") then
      code ← error.subscript "code"
    if (← error.contains_key "message") then
      message ← error.subscript "message"
  return { code := code, message := message }

/-- `package_response(client, data, response)` (client.py lines 38-65).
`status` and `text` are `response.status_code` and `response.text`;
`parsed` is the result of `json.loads(text)` (`none` when parsing raises,
in which case — as for any other exception inside the `try`, including the
`AttributeError` from `body.error` — the handler reports
`ApiError('Bad Request', content)`). -/
def package_response (status : Int) (text : String)
    (parsed : Option PyDict) : FlushOutcome :=
  if status = 200 then
    FlushOutcome.success
  else if status = 400 then
    match parsed with
    | none => FlushOutcome.failure { code := .str "Bad Request", message := .str text }
    | some body =>
      match package_response_try body with
      | Except.ok e => FlushOutcome.failure e
      | Except.error _ =>
        FlushOutcome.failure { code := .str "Bad Request", message := .str text }
  else
    FlushOutcome.failure { code := .int status, message := .str text }

/-! ## Timezone guessing (src/analytics/utils.py) -/

/-- Python's `datetime.timedelta` normalized representation:
`0 ≤ microseconds < 10^6` and `0 ≤ seconds < 86400`, with any sign carried
by `days`. -/
structure PyTimedelta where
  days : Int
  seconds : Int
  microseconds : Int
  deriving Repr, DecidableEq

/-- The normalized `timedelta` equal to `m` microseconds (the value of a
`datetime` subtraction). -/
def timedelta_of_micros (m : Int) : PyTimedelta :=
  { days := m.fdiv 86400000000,
    seconds := (m.fdiv 1000000).fmod 86400,
    microseconds := m.fmod 1000000 }

/-- `total_seconds(delta)` (utils.py lines 18-21):

        return (delta.microseconds + (delta.seconds + delta.days * 24 * 3600) * 1e6) / 1e6

Python evaluates this in binary floating point; for normalized timedeltas
the rounding never moves the value across the 5-second threshold used in
`guess_timezone` (values within one rounding error of 5 are exact
multiples of 10^-6 computed from a numerator below 2^53), so the exact
rational value is used. -/
def total_seconds (d : PyTimedelta) : ℚ :=
  (d.microseconds + (d.seconds + d.days * 24 * 3600) * 1000000) / 1000000

/-- The `tzinfo` objects the embedded code distinguishes: `dateutil`'s
`tzlocal()` and `tzutc()` (whose `utcoffset` is never `None`), or any other
tzinfo represented by the result of its `utcoffset(dt)` call. -/
inductive TzInfo where
  | tzlocal
  | tzutc
  | given (utcoffset_value : Option Int)
  deriving Repr, DecidableEq

/-- Whether `tz.utcoffset(dt)` is `None`. -/
def TzInfo.utcoffset_is_none : TzInfo → Bool
  | .tzlocal => false
  | .tzutc => false
  | .given o => o.isNone

/-- A `datetime.datetime`: its naive wall-clock reading in microseconds and
its `tzinfo` attribute (`none` for a naive datetime). -/
structure PyDatetime where
  value : Int
  tzinfo : Option TzInfo
  deriving Repr, DecidableEq

/-- `is_naive(dt)` (utils.py lines 14-16):

        return dt.tzinfo is None or dt.tzinfo.utcoffset(dt) is None
-/
def is_naive (dt : PyDatetime) : Bool :=
  match dt.tzinfo with
  | none => true
  | some tz => tz.utcoffset_is_none

/-- `guess_timezone(dt)` (utils.py lines 23-38); `now` is the wall-clock
reading of the `datetime.now()` call inside it:

        if is_naive(dt):
            delta = datetime.now() - dt
            if total_seconds(delta) < 5:
                return dt.replace(tzinfo=tzlocal())
            else:
                return dt.replace(tzinfo=tzutc())
        return dt
-/
def guess_timezone (now : Int) (dt : PyDatetime) : PyDatetime :=
  if is_naive dt then
    let delta := timedelta_of_micros (now - dt.value)
    if total_seconds delta < 5 then
      { dt with tzinfo := some TzInfo.tzlocal }
    else
      { dt with tzinfo := some TzInfo.tzutc }
  else dt

/-! ## Concrete states used to instantiate the theorems -/

/-- A client with sending enabled whose queue is at capacity. -/
def fullClient : ClientState :=
  { send := true, queue := [7], queue_maxsize := 1, stats := ⟨1, 0, 0⟩ }

/-- A client with sending enabled and an empty queue. -/
def sendingClient : ClientState :=
  { send := true, queue := [], queue_maxsize := 10000, stats := ⟨0, 0, 0⟩ }

/-- A client constructed with `send=False` and an empty queue. -/
def disabledClient : ClientState :=
  { send := false, queue := [], queue_maxsize := 10000, stats := ⟨0, 0, 0⟩ }

/-- The parsed 400 body of the spec's scenario:
`json.loads` applied to the text

    \x7b"error": \x7b"code": "bad_request", "message": "x"\x7d\x7d
-/
def errorBody : PyDict :=
  [("error", PyJson.obj [("code", PyJson.str "bad_request"),
                         ("message", PyJson.str "x")])]

/-! ## Helper lemmas -/

/-- When every `post` call raises, `request` starting from attempt counter
`attempt ≤ retries + 1` performs `retries + 2 - attempt` calls to `post`
and then re-raises. -/
theorem request_all_fail (retries : Nat) :
    ∀ k attempt, retries + 1 - attempt = k → attempt ≤ retries + 1 →
      request retries (fun _ => false) attempt = (retries + 2 - attempt, true) := by
  intro k
  induction k with
  | zero =>
    intro attempt hk hle
    have h : attempt = retries + 1 := by omega
    subst h
    rw [request]
    simp
  | succ n ih =>
    intro attempt hk hle
    have hlt : ¬ retries < attempt := by omega
    rw [request]
    have hrec := ih (attempt + 1) (by omega) (by omega)
    simp [hlt, hrec]
    omega

theorem next_drain_append {α : Type} (u : Nat) :
    ∀ (q items : List α),
      (next_drain u items q).1 ++ (next_drain u items q).2 = items ++ q := by
  intro q
  induction q with
  | nil => intro items; simp [next_drain]
  | cons x xs ih =>
    intro items
    by_cases h : items.length < u
    · simp [next_drain, h, ih]
    · simp [next_drain, h]

theorem next_drain_length_le {α : Type} (u : Nat) :
    ∀ (q items : List α), items.length ≤ u →
      (next_drain u items q).1.length ≤ u := by
  intro q
  induction q with
  | nil => intro items h; simpa [next_drain] using h
  | cons x xs ih =>
    intro items h
    by_cases hlt : items.length < u
    · simp only [next_drain, hlt, if_true]
      exact ih _ (by simp; omega)
    · simpa [next_drain, hlt] using h

theorem next_drain_short_empty {α : Type} (u : Nat) :
    ∀ (q items : List α),
      (next_drain u items q).1.length < u → (next_drain u items q).2 = [] := by
  intro q
  induction q with
  | nil => intro items _; simp [next_drain]
  | cons x xs ih =>
    intro items hshort
    by_cases hlt : items.length < u
    · simp only [next_drain, hlt, if_true] at hshort ⊢
      exact ih _ hshort
    · simp only [next_drain, hlt, if_false] at hshort

theorem successful_fold (cbs : List Nat) (b : List Event) :
    ∀ (stats : Stats) (tr : List Nat),
      b.foldl
        (fun (acc : Stats × List Nat) _ =>
          ({ acc.1 with successful := acc.1.successful + 1 }, acc.2 ++ cbs))
        (stats, tr) =
      ({ stats with successful := stats.successful + b.length },
        tr ++ (b.map (fun _ => cbs)).flatten) := by
  induction b with
  | nil => intro stats tr; simp
  | cons e rest ih =>
    intro stats tr
    simp only [List.foldl_cons, ih, List.map_cons, List.flatten_cons,
      List.length_cons, List.append_assoc]
    exact congrArg₂ _ (by congr 1; omega) rfl

theorem failed_fold (cbs : List Nat) (b : List Event) :
    ∀ (stats : Stats) (tr : List Nat),
      b.foldl
        (fun (acc : Stats × List Nat) _ =>
          ({ acc.1 with failed := acc.1.failed + 1 }, acc.2 ++ cbs))
        (stats, tr) =
      ({ stats with failed := stats.failed + b.length },
        tr ++ (b.map (fun _ => cbs)).flatten) := by
  induction b with
  | nil => intro stats tr; simp
  | cons e rest ih =>
    intro stats tr
    simp only [List.foldl_cons, ih, List.map_cons, List.flatten_cons,
      List.length_cons, List.append_assoc]
    exact congrArg₂ _ (by congr 1; omega) rfl

theorem on_successful_flush_spec (stats : Stats) (cbs : List Nat) (b : List Event) :
    on_successful_flush stats cbs (some b) =
      ({ stats with successful := stats.successful + b.length },
        (b.map (fun _ => cbs)).flatten) := by
  unfold on_successful_flush
  simp [successful_fold]

theorem on_failed_flush_spec (stats : Stats) (cbs : List Nat) (b : List Event) :
    on_failed_flush stats cbs (some b) =
      ({ stats with failed := stats.failed + b.length },
        (b.map (fun _ => cbs)).flatten) := by
  unfold on_failed_flush
  simp [failed_fold]

theorem count_flatten_const {c : Nat} (cbs : List Nat) (b : List Event) :
    ((b.map (fun _ => cbs)).flatten).count c = b.length * cbs.count c := by
  induction b with
  | nil => simp
  | cons e rest ih =>
    simp only [List.map_cons, List.flatten_cons, List.count_append, ih,
      List.length_cons]
    ring

theorem total_seconds_of_micros (m : Int) :
    total_seconds (timedelta_of_micros m) = (m : ℚ) / 1000000 := by
  have h : ((timedelta_of_micros m).microseconds : Int) +
      ((timedelta_of_micros m).seconds + (timedelta_of_micros m).days * 24 * 3600)
        * 1000000 = m := by
    simp only [timedelta_of_micros]
    rw [Int.fdiv_eq_ediv _ (by norm_num), Int.fdiv_eq_ediv _ (by norm_num),
        Int.fmod_eq_emod _ (by norm_num), Int.fmod_eq_emod _ (by norm_num)]
    omega
  unfold total_seconds
  have hq : (((timedelta_of_micros m).microseconds : ℚ) +
      (((timedelta_of_micros m).seconds : ℚ) +
        ((timedelta_of_micros m).days : ℚ) * 24 * 3600) * 1000000) = (m : ℚ) := by
    exact_mod_cast congrArg (fun z : Int => (z : ℚ)) h
  rw [hq]

/-! ## Claims -/

/-- C1, counterexample: with the default `retries = 3` and every delivery
attempt failing, `Consumer.request` called with `attempt = 0` performs 5
calls to `post`, not the `retries + 1 = 4` the claim states. -/
theorem C1_counterexample :
    (request 3 (fun _ => false) 0).1 = 5 ∧
      (request 3 (fun _ => false) 0).1 ≠ 3 + 1 := by
  have h := request_all_fail 3 4 0 (by omega) (by omega)
  rw [h]
  simp

/-- C1, amended: for every batch whose delivery attempts all fail,
`Consumer.request` (called with `attempt = 0`) makes exactly `retries + 2`
total delivery attempts via `post` and then propagates the error (the
second component records that the call re-raises, so the batch is never
re-delivered afterwards). -/
theorem C1_request_attempts (retries : Nat) :
    request retries (fun _ => false) 0 = (retries + 2, true) := by
  have h := request_all_fail retries (retries + 1) 0 (by omega) (by omega)
  simpa using h

/-- C2, counterexample: delivering a payload whose batch holds two events
with one registered success callback invokes that callback twice, not the
once-per-batch the claim states. -/
theorem C2_counterexample :
    ((on_successful_flush ⟨0, 0, 0⟩ [0] (some [10, 20])).2.count 0 = 2) ∧
      (on_successful_flush ⟨0, 0, 0⟩ [0] (some [10, 20])).2.count 0 ≠ 1 := by
  decide

/-- C2, amended: for every delivered batch, each registered success
callback (occurring once in the registry) is invoked exactly once per
event of the batch — `batch.length` times, receiving the whole payload
each time — and `stats.successful` increases by the batch length;
symmetrically for failure callbacks and `stats.failed` on a
terminally-failed batch. -/
theorem C2_callbacks_once_per_event (stats : Stats) (cbs : List Nat) (c : Nat)
    (b : List Event) (hc : cbs.count c = 1) :
    (on_successful_flush stats cbs (some b)).2.count c = b.length ∧
      (on_successful_flush stats cbs (some b)).1.successful =
        stats.successful + b.length ∧
      (on_failed_flush stats cbs (some b)).2.count c = b.length ∧
      (on_failed_flush stats cbs (some b)).1.failed = stats.failed + b.length := by
  rw [on_successful_flush_spec, on_failed_flush_spec]
  refine ⟨?_, by simp, ?_, by simp⟩
  · rw [count_flatten_const, hc, Nat.mul_one]
  · rw [count_flatten_const, hc, Nat.mul_one]

theorem C2_witness :
    (([0] : List Nat).count 0 = 1) ∧
      ((on_successful_flush ⟨3, 4, 5⟩ [0] (some [10, 20])).2.count 0 = 2 ∧
        (on_successful_flush ⟨3, 4, 5⟩ [0] (some [10, 20])).1.successful = 4 + 2 ∧
        (on_failed_flush ⟨3, 4, 5⟩ [0] (some [10, 20])).2.count 0 = 2 ∧
        (on_failed_flush ⟨3, 4, 5⟩ [0] (some [10, 20])).1.failed = 5 + 2) :=
  ⟨by decide, C2_callbacks_once_per_event ⟨3, 4, 5⟩ [0] 0 [10, 20] (by decide)⟩

/-- C3, counterexample: with queue depth 0, `flush_at = 20`, `last_flushed`
set, and elapsed time exactly equal to `flush_after`, the claim's formula
demands true, but `_should_flush` compares the elapsed time with a strict
`>` and returns false. -/
theorem C3_counterexample :
    should_flush 0 20 (some 0) 10 10 = false ∧
      ((20 : Nat) ≤ 0 ∨ (some (0 : Int)) = none ∨ (10 : Int) - 0 ≥ 10) := by
  exact ⟨by decide, Or.inr (Or.inr (by decide))⟩

/-- C3, amended: `_should_flush` returns true iff queue depth ≥ `flush_at`,
or `last_flushed` is unset, or the elapsed time since `last_flushed` is
strictly greater than `flush_after`. -/
theorem C3_should_flush_iff (d fa : Nat) (last : Option Int) (now dur : Int) :
    should_flush d fa last now dur = true ↔
      (fa ≤ d ∨ last = none ∨ ∃ t, last = some t ∧ dur < now - t) := by
  unfold should_flush
  cases last with
  | none => simp
  | some t => simp

/-- C4: for every queue with at least one pending event and
`upload_size ≥ 1`, `Consumer.next` returns a batch that is an initial
segment of the queue (FIFO order: the batch followed by the leftover queue
re-forms the original queue), of length at most `upload_size`, and of
length below `upload_size` only when it drained the queue empty. -/
theorem C4_next_batch (u : Nat) (q : List Event) (hq : q ≠ []) (hu : 1 ≤ u) :
    ∃ batch rest, next u q = some (batch, rest) ∧
      batch ++ rest = q ∧ batch.length ≤ u ∧ (batch.length < u → rest = []) := by
  cases q with
  | nil => exact absurd rfl hq
  | cons x xs =>
    refine ⟨(next_drain u [x] xs).1, (next_drain u [x] xs).2, rfl, ?_, ?_, ?_⟩
    · simpa using next_drain_append u xs [x]
    · exact next_drain_length_le u xs [x] (by simpa using hu)
    · exact next_drain_short_empty u xs [x]

theorem C4_witness :
    ∃ batch rest, next 2 ([1, 2, 3] : List Event) = some (batch, rest) ∧
      batch ++ rest = [1, 2, 3] ∧ batch.length ≤ 2 ∧ (batch.length < 2 → rest = []) :=
  C4_next_batch 2 [1, 2, 3] (by decide) (by decide)

/-- C5: at the claim's input — sending enabled and the queue already at
capacity — `_enqueue` raises `TypeError` at `len(self.queue)`
(client.py line 316; the `queue.Queue` assigned in `__init__` defines no
`__len__`) and never returns any boolean, so in particular it does not
return false.  The state (queue depth and contents, stats) is unchanged
only because the exception precedes every mutation. -/
theorem C5_enqueue_full_raises (c : ClientState) (msg : Event)
    (hsend : c.send = true) (_hfull : c.queue.length = c.queue_maxsize) :
    (c.enqueue msg).outcome = Except.error PyExc.typeError ∧
      (c.enqueue msg).state = c ∧
      ∀ b, (c.enqueue msg).outcome ≠ Except.ok b := by
  unfold ClientState.enqueue
  simp [hsend]

theorem C5_witness :
    (fullClient.send = true) ∧
      (fullClient.queue.length = fullClient.queue_maxsize) ∧
      ((fullClient.enqueue 9).outcome = Except.error PyExc.typeError ∧
        (fullClient.enqueue 9).state = fullClient ∧
        ∀ b, (fullClient.enqueue 9).outcome ≠ Except.ok b) :=
  ⟨rfl, by decide, C5_enqueue_full_raises fullClient 9 rfl (by decide)⟩

/-- C6: `self._should_flush()` is never evaluated and `self.flush()` is
never called on any `_enqueue` call whatsoever: with sending disabled the
method returns false at its first statement, and with sending enabled the
`TypeError` at `len(self.queue)` propagates before the
`if self._should_flush()` line — so no `_enqueue` call ever succeeds, and
the claim's "evaluated on every successful enqueue" describes behaviour
the program cannot exhibit. -/
theorem C6_policy_never_reached (c : ClientState) (msg : Event) :
    (c.enqueue msg).policy_evaluated = false ∧
      (c.enqueue msg).flush_called = false ∧
      (c.send = true → (c.enqueue msg).outcome = Except.error PyExc.typeError) ∧
      (c.send = false → (c.enqueue msg).outcome = Except.ok false) := by
  unfold ClientState.enqueue
  by_cases hs : c.send <;> simp [hs]

theorem C6_witness :
    (sendingClient.enqueue 5).policy_evaluated = false ∧
      (sendingClient.enqueue 5).flush_called = false ∧
      (sendingClient.send = true) ∧
      (sendingClient.enqueue 5).outcome = Except.error PyExc.typeError :=
  ⟨(C6_policy_never_reached sendingClient 5).1,
    (C6_policy_never_reached sendingClient 5).2.1,
    rfl,
    (C6_policy_never_reached sendingClient 5).2.2.1 rfl⟩

/-- C7: at the spec's own scenario — a 400 response whose parsed body is
the object `errorBody` carrying code `bad_request` and message `x` — the
failure is reported as `ApiError('Bad Request', raw body text)` coming from
the generic exception handler: the attribute access `body.error` raises
`AttributeError` on a dict, so the structured code/message extraction is
dead code and the claimed error detail never surfaces. -/
theorem C7_error_extraction_dead :
    package_response 400 "rawbody" (some errorBody) =
        FlushOutcome.failure
          { code := PyJson.str "Bad Request", message := PyJson.str "rawbody" } ∧
      PyJson.str "Bad Request" ≠ PyJson.str "bad_request" := by
  constructor
  · rfl
  · intro h
    injection h with h2
    exact absurd h2 (by decide)

/-- C8: with `send=False` every `_enqueue` call returns false (the early
return is the method's first statement, before every broken line),
evaluates no flush policy, calls no flush (so no delivery request is ever
issued) and leaves the client state — including `stats.submitted` —
unchanged, over any sequence of calls. -/
theorem C8_send_disabled (c : ClientState) (hsend : c.send = false) :
    (∀ msg, c.enqueue msg =
      { outcome := Except.ok false, policy_evaluated := false,
        flush_called := false, state := c }) ∧
      (∀ msgs, c.enqueueAll msgs = c) := by
  have h1 : ∀ msg, c.enqueue msg =
      { outcome := Except.ok false, policy_evaluated := false,
        flush_called := false, state := c } := by
    intro msg
    unfold ClientState.enqueue
    simp [hsend]
  refine ⟨h1, ?_⟩
  intro msgs
  induction msgs with
  | nil => rfl
  | cons msg rest ih =>
    rw [ClientState.enqueueAll, h1]; exact ih

theorem C8_witness :
    (disabledClient.send = false) ∧
      (disabledClient.enqueue 5 =
        { outcome := Except.ok false, policy_evaluated := false,
          flush_called := false, state := disabledClient }) ∧
      (disabledClient.enqueueAll [1, 2, 3] = disabledClient) :=
  ⟨rfl, (C8_send_disabled disabledClient rfl).1 5,
    (C8_send_disabled disabledClient rfl).2 [1, 2, 3]⟩

/-- C9: on a delivery that raises (every `post` attempt failing, default
`retries = 3`), `Consumer.upload` propagates the `TypeError` raised by the
`log('error')` call in its handler: for a one-event batch it makes 0
`task_done` calls and returns no boolean — against the claim's
one-`task_done`-per-event and `false` return.  On a delivery that succeeds
the claimed behaviour does hold: one `task_done` per event and `true`. -/
theorem C9_upload_failure_raises :
    upload 3 (fun _ => false) [5] = (Except.error PyExc.typeError, 0) ∧
      upload 3 (fun _ => true) [5] = (Except.ok true, 1) := by
  constructor
  · have h := request_all_fail 3 4 0 (by omega) (by omega)
    unfold upload
    rw [h]
    simp
  · have h : request 3 (fun _ => true) 0 = (1, false) := by
      rw [request]; simp
    unfold upload
    rw [h]
    simp

/-- C10: `guess_timezone` returns a timezone-aware datetime unchanged; a
naive datetime keeps its wall-clock value and is tagged with the local
timezone exactly when the elapsed time from `dt` to `now` is under 5
seconds (i.e. `now - dt < 5·10^6` microseconds), and with UTC otherwise. -/
theorem C10_guess_timezone (now : Int) (dt : PyDatetime) :
    (is_naive dt = false → guess_timezone now dt = dt) ∧
      (is_naive dt = true → now - dt.value < 5000000 →
        guess_timezone now dt = { dt with tzinfo := some TzInfo.tzlocal }) ∧
      (is_naive dt = true → 5000000 ≤ now - dt.value →
        guess_timezone now dt = { dt with tzinfo := some TzInfo.tzutc }) := by
  have key : ∀ m : Int, total_seconds (timedelta_of_micros m) < 5 ↔ m < 5000000 := by
    intro m
    rw [total_seconds_of_micros, div_lt_iff₀ (by norm_num : (0 : ℚ) < 1000000)]
    constructor
    · intro h; exact_mod_cast h
    · intro h
      have : (m : ℚ) < 5000000 := by exact_mod_cast h
      linarith
  refine ⟨?_, ?_, ?_⟩
  · intro h
    simp [guess_timezone, h]
  · intro h hlt
    have : total_seconds (timedelta_of_micros (now - dt.value)) < 5 := (key _).mpr hlt
    simp [guess_timezone, h, this]
  · intro h hge
    have : ¬ total_seconds (timedelta_of_micros (now - dt.value)) < 5 := by
      rw [key]; omega
    simp [guess_timezone, h, this]

theorem C10_witness :
    (is_naive ⟨0, none⟩ = true) ∧ ((0 : Int) - (⟨0, none⟩ : PyDatetime).value < 5000000) ∧
      (guess_timezone 0 ⟨0, none⟩ = ⟨0, some TzInfo.tzlocal⟩) ∧
      (is_naive ⟨0, some (TzInfo.given (some 60))⟩ = false) ∧
      (guess_timezone 0 ⟨0, some (TzInfo.given (some 60))⟩ =
        ⟨0, some (TzInfo.given (some 60))⟩) :=
  ⟨rfl, by decide, (C10_guess_timezone 0 ⟨0, none⟩).2.1 rfl (by decide),
    rfl, (C10_guess_timezone 0 ⟨0, some (TzInfo.given (some 60))⟩).1 rfl⟩

end Analytics
